import Mathlib

/-!
Shallow embedding of the maubot reminder plugin core (`reminder/bot.py`).

Time is modelled as `Int` microseconds since the epoch, UTC: Python
`datetime` objects carry microsecond precision, so every `datetime`
value and every `timedelta` arithmetic step in the source maps exactly
to `Int` arithmetic here.  Python `%` on integers agrees with `Int.emod`
and Python floor division with `Int.ediv` for a positive modulus.

The command handler `remind`, the per-reminder delivery coroutine
`_send_reminder`, the scheduler loop `reminder_loop` and the scan
`schedule_nearby_reminders` are embedded as pure functions that return
the sequence of externally visible effects they perform, in source
order.  Awaited calls and fire-and-forget task spawns are distinguished
by separate effect constructors.
-/

/-- Microseconds in one second. -/
def usPerSecond : Int := 1000000

/-- Microseconds in one minute. -/
def usPerMinute : Int := 60000000

/-- Python `dt.replace(microsecond=0)`: drop the sub-second part. -/
def truncToSecond (t : Int) : Int := t - t % usPerSecond

/-- Python `dt.replace(second=0, microsecond=0)`: drop the sub-minute part. -/
def truncToMinute (t : Int) : Int := t - t % usPerMinute

/-- Python `dt.minute`: the minute-of-hour field, in `[0, 60)`.  On
`Int`, `%` is `Int.emod` and `/` is `Int.ediv`, which agree with Python
floor semantics for the positive divisors used here. -/
def minuteField (t : Int) : Int := (t / usPerMinute) % 60

/-- The `ReminderInfo` record as used by `bot.py` (declared in
`reminder/util.py`): target instant, destination room, message text,
optional reply-to event, recipient map (user id to origination event id,
as an association list) and the optional id of the confirmation message
the bot posted. -/
structure ReminderInfo where
  date : Int
  room_id : String
  message : String
  reply_to : Option String
  users : List (String × String)
  event_id : Option String
deriving Repr, DecidableEq

/-- Effects the `remind` command handler can perform, in source order.
`reply` is `evt.reply`, `deliverNow` is the awaited `send_reminder`
call on the immediate path (line 117), `insert` is `db.insert`, and
`spawnDelivery` is the fire-and-forget
`asyncio.ensure_future(send_reminder(...))` at line 138. -/
inductive ReplyKind
  /-- The rejection reply at line 112; it interpolates the (truncated)
  requested date. -/
  | past (date : Int)
  /-- The confirmation reply at line 133 with its full text. -/
  | confirm (msg : String)
deriving Repr, DecidableEq

inductive Effect
  | reply (kind : ReplyKind)
  | deliverNow (rem : ReminderInfo)
  | insert (rem : ReminderInfo)
  | spawnDelivery (rem : ReminderInfo)
deriving Repr, DecidableEq

/-- Effects of `_send_reminder`: the residual-gap sleep, the reply-context
fetch (`client.get_event`) and the transport hand-off
(`client.send_message`). -/
inductive SendEffect
  | sleep (waitUs : Int)
  | fetchReplyEvent (room : String) (eventId : String)
  | sendMessage (room : String) (body : String) (formattedBody : String)
deriving Repr, DecidableEq

/-- Apostrophe character, used inside several source strings. -/
def apos : String := String.singleton (Char.ofNat 39)

/-- The thumbs-up character appearing in the confirmation text. -/
def thumbsUp : String := String.singleton (Char.ofNat 128077)

/-- Python `html.escape` with default `quote=True`. -/
def htmlEscape (s : String) : String :=
  s.data.foldl (fun acc c =>
    acc ++ (if c = '&' then "&amp;"
            else if c = '<' then "&lt;"
            else if c = '>' then "&gt;"
            else if c = Char.ofNat 34 then "&quot;"
            else if c = Char.ofNat 39 then "&#x27;"
            else String.singleton c)) ""

/-- One user pill of the formatted body built at lines 94-95. -/
def userHtml (u : String) : String :=
  "<a href=" ++ apos ++ "https://matrix.to/#/" ++ u ++ apos ++ ">" ++ u ++ "</a>"

/-- Embedding of `_send_reminder` (lines 83-101).  `nowAtSend` is the
value of `datetime.now(tz=pytz.UTC)` read at line 87.  An empty
recipient map returns with no effect at all (lines 84-86); otherwise the
positive residual gap is slept out, the reply context is fetched when a
`reply_to` is set, and exactly one message is handed to the transport. -/
def _send_reminder (nowAtSend : Int) (rem : ReminderInfo) : List SendEffect :=
  if rem.users.length = 0 then []
  else
    let wait := rem.date - nowAtSend
    let users := " ".intercalate (rem.users.map Prod.fst)
    let usersHtml := " ".intercalate (rem.users.map (fun u => userHtml u.1))
    let body := users ++ ": " ++ rem.message
    let formatted := usersHtml ++ ": " ++ htmlEscape rem.message
    (if wait > 0 then [SendEffect.sleep wait] else [])
    ++ (match rem.reply_to with
        | some r => [SendEffect.fetchReplyEvent rem.room_id r]
        | none => [])
    ++ [SendEffect.sendMessage rem.room_id body formatted]

/-- Transport sends contained in a `_send_reminder` effect list. -/
def sentBodies (es : List SendEffect) : List String :=
  es.filterMap (fun e => match e with
    | SendEffect.sendMessage _ b _ => some b
    | _ => none)

/-- The `ReminderInfo` constructed at lines 114-115: target date,
command room, raw message, the command reply target, and the sender
enrolled with the creating command message id as origination marker. -/
def initial_rem (date : Int) (room sender eventId : String)
    (replyTo : Option String) (message : String) : ReminderInfo :=
  { date := date, room_id := room, message := message, reply_to := replyTo,
    users := [(sender, eventId)], event_id := none }

/-- The markdown event link built at line 121. -/
def evt_link (room eventId : String) : String :=
  "[event](https://matrix.to/#/" ++ room ++ "/" ++ eventId ++ ")"

/-- Lines 119-130: the human description of the reminder and the final
message text.  The second component records the in-place mutation
`rem.message = "ping"` performed only in the final else branch. -/
def remind_type_message (replyTo : Option String) (message room : String) :
    String × String :=
  match replyTo with
  | some rt =>
      if message = "" then
        ("remind you about that " ++ evt_link room rt, message)
      else
        ("remind you to " ++ message ++ " (replying to that " ++ evt_link room rt ++ ")",
         message)
  | none =>
      if message = "" then ("ping you", "ping")
      else ("remind you to " ++ message, message)

/-- The confirmation text built at lines 131-132.  `fmtTime` stands for
the `format_time` rendering of the target date (a collaborator outside
the scheduling core). -/
def confirm_msg (remindType fmtTime : String) : String :=
  "I" ++ apos ++ "ll " ++ remindType ++ " " ++ fmtTime ++
  ".\n\n(others can " ++ thumbsUp ++ " this message to get pinged too)"

/-- The reminder as it stands after line 133: message possibly defaulted
to "ping" and `event_id` set to the id of the confirmation reply. -/
def final_rem (date : Int) (room sender eventId : String)
    (replyTo : Option String) (message confirmId : String) : ReminderInfo :=
  { date := date, room_id := room,
    message := (remind_type_message replyTo message room).2,
    reply_to := replyTo, users := [(sender, eventId)],
    event_id := some confirmId }

/-- Lines 119-138, the deferred branch of `remind`: reply with the
confirmation, persist the reminder, then spawn a delivery task when the
target is less than sixty seconds away and in the same wall-clock
minute as the fresh `datetime.now()` read at line 135 (`now2`). -/
def remindFuture (now2 date : Int) (room sender eventId : String)
    (replyTo : Option String) (message confirmId fmtTime : String) : List Effect :=
  [Effect.reply (ReplyKind.confirm
      (confirm_msg (remind_type_message replyTo message room).1 fmtTime)),
   Effect.insert (final_rem date room sender eventId replyTo message confirmId)]
  ++ (if date - now2 < 60 * usPerSecond ∧ minuteField now2 = minuteField date
      then [Effect.spawnDelivery (final_rem date room sender eventId replyTo message confirmId)]
      else [])

/-- Embedding of the `remind` command handler (lines 108-138).
`dateArg` is the parsed date argument, `now1` the `datetime.now` read
at line 110, `now2` the one read at line 135 after the confirmation
reply, `confirmId` the event id returned by `evt.reply` at line 133 and
`fmtTime` the `format_time` rendering used in the confirmation. -/
def remind (now1 now2 dateArg : Int) (room sender eventId : String)
    (replyTo : Option String) (message confirmId fmtTime : String) : List Effect :=
  if truncToSecond dateArg < truncToSecond now1 then
    [Effect.reply (ReplyKind.past (truncToSecond dateArg))]
  else if truncToSecond dateArg = truncToSecond now1 then
    [Effect.deliverNow
      (initial_rem (truncToSecond dateArg) room sender eventId replyTo message)]
  else
    remindFuture now2 (truncToSecond dateArg) room sender eventId replyTo message
      confirmId fmtTime

/-- Recognisers over handler effects. -/
def isReply : Effect → Bool
  | Effect.reply _ => true
  | _ => false

def isInsert : Effect → Bool
  | Effect.insert _ => true
  | _ => false

def isSpawn : Effect → Bool
  | Effect.spawnDelivery _ => true
  | _ => false

/-- Index of the first `reply` effect, when any. -/
def replyIdx (es : List Effect) : Option Nat := es.findIdx? isReply

/-- Index of the first `insert` effect, when any. -/
def insertIdx (es : List Effect) : Option Nat := es.findIdx? isInsert

/-- Whether the handler spawned a fire-and-forget delivery task. -/
def spawnsDelivery (es : List Effect) : Bool := es.any isSpawn

/-- Whether some store insert happens strictly before the first reply. -/
def persistBeforeReply (es : List Effect) : Bool :=
  match insertIdx es, replyIdx es with
  | some i, some j => decide (i < j)
  | _, _ => false

/-- Messages of the reminders persisted by a trace, in order. -/
def insertedMessages (es : List Effect) : List String :=
  es.filterMap (fun e => match e with
    | Effect.insert r => some r.message
    | _ => none)

/-- Messages of the reminders delivered synchronously by a trace. -/
def deliveredMessages (es : List Effect) : List String :=
  es.filterMap (fun e => match e with
    | Effect.deliverNow r => some r.message
    | _ => none)

/-- The store as the list of persisted reminders; the only
store-mutating effect a `remind` trace can contain is `insert`. -/
def applyEffect (store : List ReminderInfo) : Effect → List ReminderInfo
  | Effect.insert r => store ++ [r]
  | _ => store

def applyEffects (store : List ReminderInfo) (es : List Effect) : List ReminderInfo :=
  es.foldl applyEffect store

/-- Modelled from the spec: `ReminderDatabase.all_in_range(from, to)`
(`reminder/db.py` is not under src/); the spec defines it as all
reminders with `from <= date < to`. -/
def all_in_range (store : List ReminderInfo) (frm upto : Int) : List ReminderInfo :=
  store.filter (fun r => decide (frm ≤ r.date) && decide (r.date < upto))

/-- Modelled from the spec: `ReminderDatabase.get_by_event_id`
(`reminder/db.py` is not under src/); resolves an opt-in signal target
to the reminder whose confirmation message it references. -/
def get_by_event_id (store : List ReminderInfo) (eid : String) : Option ReminderInfo :=
  store.find? (fun r => r.event_id = some eid)

/-- Line 64: the minute boundary the loop sleeps until,
`(now + timedelta(minutes=1)).replace(second=0, microsecond=0)`. -/
def next_minute (now : Int) : Int := truncToMinute (now + usPerMinute)

/-- Embedding of `schedule_nearby_reminders` (lines 72-75).  The first
component records the pair of bounds passed to `db.all_in_range`
(`until = now + timedelta(minutes=1)`); the second lists the reminders
for which a `send_reminder` task is spawned, in query order. -/
def schedule_nearby_reminders (store : List ReminderInfo) (now : Int) :
    (Int × Int) × List ReminderInfo :=
  ((now, now + usPerMinute), all_in_range store now (now + usPerMinute))

/-- Outcome of one iteration of the `while True` body (lines 62-66): the
awaited `schedule_nearby_reminders` call returned normally, raised an
exception, or the iteration was cancelled (shutdown during the sleep). -/
inductive TickOutcome
  | ok
  | fault
  | cancelled
deriving Repr, DecidableEq

/-- How the `reminder_loop` coroutine is observed after consuming a
finite prefix of iteration outcomes: still inside the `while True`, or
returned through one of the two except clauses at lines 67-70. -/
inductive LoopExit
  | stillRunning
  | cancelledLogged
  | faultLogged
deriving Repr, DecidableEq

/-- Embedding of `reminder_loop` (lines 59-70) as a function of the
sequence of per-iteration outcomes.  The try/except wraps the whole
`while True`, so the first fault propagates out of the loop into the
`except Exception` clause, which logs it and lets the coroutine return.
The first component counts the iterations completed. -/
def reminder_loop : List TickOutcome → Nat × LoopExit
  | [] => (0, LoopExit.stillRunning)
  | TickOutcome.ok :: rest =>
      let r := reminder_loop rest
      (r.1 + 1, r.2)
  | TickOutcome.fault :: _ => (0, LoopExit.faultLogged)
  | TickOutcome.cancelled :: _ => (0, LoopExit.cancelledLogged)

/-! ## Helper lemmas -/

/-- Branch lemma: when the truncated date equals the truncated now, the
handler takes the immediate-delivery shortcut (lines 116-118). -/
theorem remind_immediate_eq (now1 now2 dateArg : Int) (room sender eventId : String)
    (replyTo : Option String) (message confirmId fmtTime : String)
    (h : truncToSecond dateArg = truncToSecond now1) :
    remind now1 now2 dateArg room sender eventId replyTo message confirmId fmtTime
      = [Effect.deliverNow
          (initial_rem (truncToSecond dateArg) room sender eventId replyTo message)] := by
  have hlt : ¬ truncToSecond dateArg < truncToSecond now1 := by
    rw [h]; exact lt_irrefl _
  simp only [remind, if_neg hlt, if_pos h]

/-- Branch lemma: a strictly future truncated date takes the deferred
branch (lines 119-138). -/
theorem remind_future_eq (now1 now2 dateArg : Int) (room sender eventId : String)
    (replyTo : Option String) (message confirmId fmtTime : String)
    (h1 : ¬ truncToSecond dateArg < truncToSecond now1)
    (h2 : truncToSecond dateArg ≠ truncToSecond now1) :
    remind now1 now2 dateArg room sender eventId replyTo message confirmId fmtTime
      = remindFuture now2 (truncToSecond dateArg) room sender eventId replyTo
          message confirmId fmtTime := by
  simp only [remind, if_neg h1, if_neg h2]

/-! ## Claims -/

/-- C1 (amended): an exception escaping one iteration of the scheduler
loop is logged by the `except Exception` clause, but that clause wraps
the whole `while True`, so the fault terminates the loop: no subsequent
tick is ever performed after a fault. -/
theorem reminder_loop_fault_terminates (rest : List TickOutcome) :
    reminder_loop (TickOutcome.fault :: rest) = (0, LoopExit.faultLogged) := rfl

/-- C1 counterexample: with a fault in the first iteration and a normal
second iteration available, the loop completes zero further ticks and
exits through the fault handler, while a fault-free run completes both
ticks — contradicting the claim that no fault terminates the loop. -/
theorem reminder_loop_fault_cex :
    reminder_loop [TickOutcome.fault, TickOutcome.ok] = (0, LoopExit.faultLogged)
    ∧ reminder_loop [TickOutcome.ok, TickOutcome.ok] = (2, LoopExit.stillRunning) := by
  exact ⟨rfl, rfl⟩

/-- C2 (amended): on the deferred create path the user-facing
confirmation reply is the first effect and the store insert is the
second: the reply precedes the persist (the reply must happen first so
that its event id can be stored on the reminder), and the persisted
reminder carries the reply id as its `event_id`. -/
theorem remind_reply_precedes_persist (now1 now2 dateArg : Int)
    (room sender eventId : String) (replyTo : Option String)
    (message confirmId fmtTime : String)
    (h1 : ¬ truncToSecond dateArg < truncToSecond now1)
    (h2 : truncToSecond dateArg ≠ truncToSecond now1) :
    replyIdx (remind now1 now2 dateArg room sender eventId replyTo message confirmId fmtTime)
      = some 0
    ∧ insertIdx (remind now1 now2 dateArg room sender eventId replyTo message confirmId fmtTime)
      = some 1
    ∧ (remind now1 now2 dateArg room sender eventId replyTo message confirmId fmtTime).get? 1
      = some (Effect.insert
          (final_rem (truncToSecond dateArg) room sender eventId replyTo message confirmId))
    ∧ (final_rem (truncToSecond dateArg) room sender eventId replyTo message confirmId).event_id
      = some confirmId := by
  rw [remind_future_eq now1 now2 dateArg room sender eventId replyTo message confirmId fmtTime h1 h2]
  exact ⟨rfl, rfl, rfl, rfl⟩

/-- C2 witness: a concrete deferred create. -/
theorem remind_reply_precedes_persist_witness :
    (¬ truncToSecond 90000000 < truncToSecond 0)
    ∧ replyIdx (remind 0 0 90000000 "r" "u" "e" none "m" "c" "t") = some 0
    ∧ insertIdx (remind 0 0 90000000 "r" "u" "e" none "m" "c" "t") = some 1 :=
  ⟨by decide,
   (remind_reply_precedes_persist 0 0 90000000 "r" "u" "e" none "m" "c" "t"
      (by decide) (by decide)).1,
   (remind_reply_precedes_persist 0 0 90000000 "r" "u" "e" none "m" "c" "t"
      (by decide) (by decide)).2.1⟩

/-- C2 counterexample: at a concrete future-dated create, no persist
happens before the reply — the reply is effect 0 and the insert is
effect 1, so the claimed persist-before-reply order is violated. -/
theorem remind_persist_before_reply_cex :
    persistBeforeReply (remind 0 0 90000000 "r" "u" "e" none "m" "c" "t") = false
    ∧ replyIdx (remind 0 0 90000000 "r" "u" "e" none "m" "c" "t") = some 0
    ∧ insertIdx (remind 0 0 90000000 "r" "u" "e" none "m" "c" "t") = some 1 := by
  exact ⟨rfl, rfl, rfl⟩

/-- C3: a delivery task whose reminder has an empty recipient set at
step 1 returns without any effect at all — in particular it performs no
transport send. -/
theorem send_reminder_no_users_no_send (nowAtSend : Int) (rem : ReminderInfo)
    (h : rem.users = []) :
    _send_reminder nowAtSend rem = [] := by
  simp [_send_reminder, h]

/-- C3 witness: a concrete reminder with no recipients. -/
theorem send_reminder_no_users_no_send_witness :
    ({ date := 0, room_id := "r", message := "m", reply_to := none,
       users := [], event_id := none } : ReminderInfo).users = []
    ∧ _send_reminder 0
        { date := 0, room_id := "r", message := "m", reply_to := none,
          users := [], event_id := none } = [] :=
  ⟨rfl, send_reminder_no_users_no_send 0 _ rfl⟩

/-- C4: when the truncated requested date equals the truncated current
time, the handler delivers immediately and synchronously: its whole
effect trace is the single awaited delivery of the fresh reminder, so
nothing is left for the next scheduler tick. -/
theorem remind_equal_now_immediate (now1 now2 dateArg : Int)
    (room sender eventId : String) (replyTo : Option String)
    (message confirmId fmtTime : String)
    (h : truncToSecond dateArg = truncToSecond now1) :
    remind now1 now2 dateArg room sender eventId replyTo message confirmId fmtTime
      = [Effect.deliverNow
          (initial_rem (truncToSecond dateArg) room sender eventId replyTo message)] :=
  remind_immediate_eq now1 now2 dateArg room sender eventId replyTo message confirmId fmtTime h

/-- C4 witness: creating at second granularity for the current instant. -/
theorem remind_equal_now_immediate_witness :
    truncToSecond 0 = truncToSecond 500000
    ∧ remind 500000 0 0 "r" "u" "e" none "m" "c" "t"
        = [Effect.deliverNow (initial_rem 0 "r" "u" "e" none "m")] :=
  ⟨by decide,
   remind_equal_now_immediate 500000 0 0 "r" "u" "e" none "m" "c" "t" (by decide)⟩

/-- C5 (amended): the empty-message-no-reply default to "ping" happens
only on the deferred create path: there the persisted reminder's message
is "ping".  On the immediate-delivery path the shortcut returns before
the defaulting code runs, so the message stays empty. -/
theorem remind_deferred_empty_message_ping (now1 now2 dateArg : Int)
    (room sender eventId confirmId fmtTime : String)
    (h1 : ¬ truncToSecond dateArg < truncToSecond now1)
    (h2 : truncToSecond dateArg ≠ truncToSecond now1) :
    insertedMessages (remind now1 now2 dateArg room sender eventId none "" confirmId fmtTime)
      = ["ping"]
    ∧ (final_rem (truncToSecond dateArg) room sender eventId none "" confirmId).message
      = "ping" := by
  refine ⟨?_, rfl⟩
  rw [remind_future_eq now1 now2 dateArg room sender eventId none "" confirmId fmtTime h1 h2]
  by_cases hc : truncToSecond dateArg - now2 < 60 * usPerSecond
      ∧ minuteField now2 = minuteField (truncToSecond dateArg)
  · simp [remindFuture, insertedMessages, hc, final_rem, remind_type_message]
  · simp [remindFuture, insertedMessages, hc, final_rem, remind_type_message]

/-- C5 witness: a concrete deferred create with empty message. -/
theorem remind_deferred_empty_message_ping_witness :
    (¬ truncToSecond 90000000 < truncToSecond 0)
    ∧ insertedMessages (remind 0 0 90000000 "r" "u" "e" none "" "c" "t") = ["ping"] :=
  ⟨by decide,
   (remind_deferred_empty_message_ping 0 0 90000000 "r" "u" "e" "c" "t"
      (by decide) (by decide)).1⟩

/-- C5 counterexample: an empty-message reminder created for exactly now
takes the immediate-delivery shortcut before the "ping" defaulting code
runs: the delivered reminder's message is the empty string, nothing is
persisted, and the rendered transport body is "u: " rather than a ping
text. -/
theorem remind_ping_cex :
    deliveredMessages (remind 0 0 0 "r" "u" "e" none "" "c" "t") = [""]
    ∧ insertedMessages (remind 0 0 0 "r" "u" "e" none "" "c" "t") = []
    ∧ remind 0 0 0 "r" "u" "e" none "" "c" "t"
        = [Effect.deliverNow (initial_rem 0 "r" "u" "e" none "")]
    ∧ sentBodies (_send_reminder 0 (initial_rem 0 "r" "u" "e" none "")) = ["u: "] := by
  refine ⟨by decide, by decide, by decide, by decide⟩

/-- C6: a truncated requested date strictly before the truncated current
time is rejected: the handler's only effect is the user-visible
past-date reply, and applying the trace to any store leaves the store
unchanged — no reminder is inserted and no delivery is performed or
spawned. -/
theorem remind_past_rejected (now1 now2 dateArg : Int)
    (room sender eventId : String) (replyTo : Option String)
    (message confirmId fmtTime : String) (store : List ReminderInfo)
    (h : truncToSecond dateArg < truncToSecond now1) :
    remind now1 now2 dateArg room sender eventId replyTo message confirmId fmtTime
      = [Effect.reply (ReplyKind.past (truncToSecond dateArg))]
    ∧ applyEffects store
        (remind now1 now2 dateArg room sender eventId replyTo message confirmId fmtTime)
      = store := by
  have e : remind now1 now2 dateArg room sender eventId replyTo message confirmId fmtTime
      = [Effect.reply (ReplyKind.past (truncToSecond dateArg))] := by
    simp only [remind, if_pos h]
  exact ⟨e, by rw [e]; rfl⟩

/-- C6 witness: a concrete past-dated create against a concrete store. -/
theorem remind_past_rejected_witness :
    truncToSecond 0 < truncToSecond 1000000
    ∧ remind 1000000 0 0 "r" "u" "e" none "m" "c" "t"
        = [Effect.reply (ReplyKind.past 0)]
    ∧ applyEffects [] (remind 1000000 0 0 "r" "u" "e" none "m" "c" "t") = [] :=
  ⟨by decide,
   (remind_past_rejected 1000000 0 0 "r" "u" "e" none "m" "c" "t" [] (by decide)).1,
   (remind_past_rejected 1000000 0 0 "r" "u" "e" none "m" "c" "t" [] (by decide)).2⟩

/-- C7: the tick instant the loop passes to the scan is the minute
boundary just entered (seconds and microseconds zero, strictly after
the instant the sleep was computed at), and the scan queries the store
with exactly the half-open window from that tick to one minute later. -/
theorem reminder_loop_minute_window (now : Int) (store : List ReminderInfo) :
    next_minute now % usPerMinute = 0
    ∧ now < next_minute now
    ∧ (schedule_nearby_reminders store (next_minute now)).1
        = (next_minute now, next_minute now + usPerMinute) := by
  refine ⟨?_, ?_, rfl⟩
  · unfold next_minute truncToMinute usPerMinute
    omega
  · unfold next_minute truncToMinute usPerMinute
    omega

/-- C8: on the immediate-delivery branch the handler's trace is the
single awaited delivery: it contains no insert, no reply and no spawned
task, it leaves any store unchanged, and therefore range scans and
origin-event lookups over the store after the handler are identical to
those before it. -/
theorem remind_immediate_frame (now1 now2 dateArg : Int)
    (room sender eventId : String) (replyTo : Option String)
    (message confirmId fmtTime : String) (store : List ReminderInfo)
    (a b : Int) (eid : String)
    (h : truncToSecond dateArg = truncToSecond now1) :
    insertIdx (remind now1 now2 dateArg room sender eventId replyTo message confirmId fmtTime)
      = none
    ∧ replyIdx (remind now1 now2 dateArg room sender eventId replyTo message confirmId fmtTime)
      = none
    ∧ spawnsDelivery (remind now1 now2 dateArg room sender eventId replyTo message confirmId fmtTime)
      = false
    ∧ applyEffects store
        (remind now1 now2 dateArg room sender eventId replyTo message confirmId fmtTime)
      = store
    ∧ all_in_range
        (applyEffects store
          (remind now1 now2 dateArg room sender eventId replyTo message confirmId fmtTime)) a b
      = all_in_range store a b
    ∧ get_by_event_id
        (applyEffects store
          (remind now1 now2 dateArg room sender eventId replyTo message confirmId fmtTime)) eid
      = get_by_event_id store eid := by
  have e := remind_immediate_eq now1 now2 dateArg room sender eventId replyTo message
    confirmId fmtTime h
  rw [e]
  exact ⟨rfl, rfl, rfl, rfl, rfl, rfl⟩

/-- C8 witness: a concrete create for the current instant. -/
theorem remind_immediate_frame_witness :
    truncToSecond 0 = truncToSecond 500000
    ∧ insertIdx (remind 500000 0 0 "r" "u" "e" none "m" "c" "t") = none
    ∧ applyEffects [] (remind 500000 0 0 "r" "u" "e" none "m" "c" "t") = [] :=
  ⟨by decide,
   (remind_immediate_frame 500000 0 0 "r" "u" "e" none "m" "c" "t" [] 0 0 "x" (by decide)).1,
   (remind_immediate_frame 500000 0 0 "r" "u" "e" none "m" "c" "t" [] 0 0 "x" (by decide)).2.2.2.1⟩

/-- C9: on the deferred create path the handler spawns its own delivery
task exactly when the gap from the post-reply clock reading to the
(truncated) target date is strictly less than sixty seconds and the two
instants share the same minute-of-hour field; otherwise the trace
contains no spawned task and delivery is left to the scheduler. -/
theorem remind_future_spawn_iff (now1 now2 dateArg : Int)
    (room sender eventId : String) (replyTo : Option String)
    (message confirmId fmtTime : String)
    (h1 : ¬ truncToSecond dateArg < truncToSecond now1)
    (h2 : truncToSecond dateArg ≠ truncToSecond now1) :
    spawnsDelivery (remind now1 now2 dateArg room sender eventId replyTo message confirmId fmtTime)
      = true
    ↔ (truncToSecond dateArg - now2 < 60 * usPerSecond
       ∧ minuteField now2 = minuteField (truncToSecond dateArg)) := by
  rw [remind_future_eq now1 now2 dateArg room sender eventId replyTo message confirmId fmtTime h1 h2]
  by_cases hc : truncToSecond dateArg - now2 < 60 * usPerSecond
      ∧ minuteField now2 = minuteField (truncToSecond dateArg)
  · simp [remindFuture, spawnsDelivery, hc, isSpawn]
  · simp [remindFuture, spawnsDelivery, hc, isSpawn]

/-- C9 witness: thirty seconds ahead inside the same minute spawns. -/
theorem remind_future_spawn_iff_witness :
    (¬ truncToSecond 30000000 < truncToSecond 0)
    ∧ spawnsDelivery (remind 0 10000000 30000000 "r" "u" "e" none "m" "c" "t") = true :=
  ⟨by decide,
   (remind_future_spawn_iff 0 10000000 30000000 "r" "u" "e" none "m" "c" "t"
      (by decide) (by decide)).mpr (by decide)⟩

/-- C10: both the requested date and the current time are truncated to
whole seconds before the past check, so an instant lying sub-second in
the past but within the current second compares equal to now: it is not
rejected (no reply at all is sent) and is delivered immediately. -/
theorem remind_subsecond_past_delivered (now1 now2 dateArg : Int)
    (room sender eventId : String) (replyTo : Option String)
    (message confirmId fmtTime : String)
    (_hpast : dateArg < now1)
    (hsec : truncToSecond dateArg = truncToSecond now1) :
    remind now1 now2 dateArg room sender eventId replyTo message confirmId fmtTime
      = [Effect.deliverNow
          (initial_rem (truncToSecond dateArg) room sender eventId replyTo message)]
    ∧ replyIdx (remind now1 now2 dateArg room sender eventId replyTo message confirmId fmtTime)
      = none := by
  have e := remind_immediate_eq now1 now2 dateArg room sender eventId replyTo message
    confirmId fmtTime hsec
  rw [e]
  exact ⟨rfl, rfl⟩

/-- C10 witness: requested 0.4 seconds in the past, same second. -/
theorem remind_subsecond_past_delivered_witness :
    (500000 : Int) < 900000
    ∧ truncToSecond 500000 = truncToSecond 900000
    ∧ replyIdx (remind 900000 0 500000 "r" "u" "e" none "m" "c" "t") = none :=
  ⟨by decide, by decide,
   (remind_subsecond_past_delivered 900000 0 500000 "r" "u" "e" none "m" "c" "t"
      (by decide) (by decide)).2⟩
